import Mathlib

/-!
Shallow embedding of the "ekspose" reconciliation controller
(`controller.go` / `src/unnamed/part_000`; the two files coincide except
that `part_000` additionally implements `createIngress`, which the claims
cite, so `part_000` is embedded here).

Modelling conventions:
* Go strings are Lean `String`s; Go `map[string]string` label maps are
  association lists `List (String × String)` (only equality of whole maps
  is ever needed).
* The deployment lister cache is a list of cached `Deployment` records;
  `Deployments(ns).Get(name)` is a lookup by namespace and name.
* The cluster API server is a `Cluster` state (the services and ingresses
  that exist).  A create call either inserts the object and returns it,
  or fails.  Two failure classes arise on the executions the claims are
  about and are modelled: `alreadyExists` (an object with that
  namespace/name already exists) and `invalid` (the Kubernetes API server
  rejects a create whose `metadata.name` is empty: "name or generateName
  is required").  Per the generated client-go client, a failed `Create`
  returns a non-nil zero-valued object (`result = &v1.Service{}` is
  allocated before the request and returned unchanged on error), which is
  modelled by returning `Service.zero`.
* A nil-pointer dereference (Go runtime panic) is modelled as the
  `SyncResult.nilPanic` outcome: no API call is attempted after it and
  the panic propagates through the caller (running deferred calls).
* Side effects are recorded as a trace of attempted create calls
  (`Attempt`), each with the object passed to the API and the outcome.
-/

namespace Ekspose

/-- Pod-template label maps (`map[string]string` in Go). -/
abbrev Labels := List (String × String)

/-- The cached workload record: `appsv1.Deployment`, restricted to the
fields the controller reads (`ObjectMeta.Namespace`, `ObjectMeta.Name`,
`Spec.Template.Labels`). -/
structure Deployment where
  ns : String
  name : String
  templateLabels : Labels
deriving DecidableEq

/-- Model of `corev1.ServicePort` restricted to the fields the controller sets. -/
structure ServicePort where
  name : String
  port : Int
deriving DecidableEq

/-- Model of `corev1.Service` restricted to the fields the controller sets:
`ObjectMeta.Name`, `ObjectMeta.Namespace`, `Spec.Selector`, `Spec.Ports`. -/
structure Service where
  name : String
  ns : String
  selector : Labels
  ports : List ServicePort
deriving DecidableEq

/-- The zero value `corev1.Service{}` that a failed client-go `Create`
returns (all fields at their Go zero values). -/
def Service.zero : Service :=
  { name := "", ns := "", selector := [], ports := [] }

/-- Model of `netv1.ServiceBackendPort` (only `Number` is set). -/
structure ServiceBackendPort where
  number : Int
deriving DecidableEq

/-- Model of `netv1.IngressBackend.Service` (`netv1.IngressServiceBackend`). -/
structure IngressBackend where
  serviceName : String
  servicePort : ServiceBackendPort
deriving DecidableEq

/-- Model of `netv1.HTTPIngressPath` restricted to the fields the controller sets;
`pathType` is the string the Go code converts to `*netv1.PathType`. -/
structure HTTPIngressPath where
  path : String
  pathType : String
  backend : IngressBackend
deriving DecidableEq

/-- Model of `netv1.IngressRule`: the controller only populates
`IngressRuleValue.HTTP.Paths`. -/
structure IngressRule where
  paths : List HTTPIngressPath
deriving DecidableEq

/-- Model of `netv1.Ingress` restricted to the fields the controller sets. -/
structure Ingress where
  name : String
  ns : String
  annotations : List (String × String)
  rules : List IngressRule
deriving DecidableEq

/-- Embedding of `func depLabels(dep appsv1.Deployment) map[string]string {
return dep.Spec.Template.Labels }`. -/
def depLabels (dep : Deployment) : Labels :=
  dep.templateLabels

/-- The lister cache contents. -/
abbrev DepCache := List Deployment

/-- Embedding of `c.depLister.Deployments(ns).Get(name)`: lookup of the cached
workload record by namespace and name; `none` is the `NotFound` error
case, in which the Go lister returns a nil pointer. -/
def listerGet (cache : DepCache) (ns name : String) : Option Deployment :=
  cache.find? (fun d => d.ns == ns && d.name == name)

/-- The cluster API server state: which services and ingresses exist. -/
structure Cluster where
  services : List Service
  ingresses : List Ingress
deriving DecidableEq

/-- Error classes returned by the modelled API server (spec taxonomy:
`AlreadyExists` for create conflicts; `invalid` for the permanent
validation error on an empty `metadata.name`). -/
inductive ApiError where
  | alreadyExists
  | invalid
deriving DecidableEq

/-- Whether a service with the given identity exists in the cluster. -/
def hasService (cl : Cluster) (ns name : String) : Bool :=
  cl.services.any (fun s => s.ns == ns && s.name == name)

/-- Whether an ingress with the given identity exists in the cluster. -/
def hasIngress (cl : Cluster) (ns name : String) : Bool :=
  cl.ingresses.any (fun i => i.ns == ns && i.name == name)

/-- Embedding of `c.clientset.CoreV1().Services(ns).Create(ctx, &svc, ...)`: the API
server rejects an empty `metadata.name` (`invalid`), reports a conflict
when the identity already exists (`alreadyExists`), and otherwise stores
the object and returns it.  On error the client returns the zero-valued
`Service` (client-go allocates the result object before decoding). -/
def apiCreateService (cl : Cluster) (svc : Service) :
    Cluster × Service × Option ApiError :=
  if svc.name == "" then
    (cl, Service.zero, some ApiError.invalid)
  else if hasService cl svc.ns svc.name then
    (cl, Service.zero, some ApiError.alreadyExists)
  else
    ({ cl with services := svc :: cl.services }, svc, none)

/-- Embedding of `client.NetworkingV1().Ingresses(ns).Create(ctx, &ingress, ...)`:
same API-server semantics as for services (the returned object is unused
by the Go code, so only the error is modelled). -/
def apiCreateIngress (cl : Cluster) (ing : Ingress) :
    Cluster × Option ApiError :=
  if ing.name == "" then
    (cl, some ApiError.invalid)
  else if hasIngress cl ing.ns ing.name then
    (cl, some ApiError.alreadyExists)
  else
    ({ cl with ingresses := ing :: cl.ingresses }, none)

/-- The `corev1.Service` literal built inside `syncDeployment`:
name `dep.Name`, namespace the `ns` argument, selector `depLabels(*dep)`,
and the single port `{Name: "http", Port: 80}`. -/
def mkService (ns : String) (dep : Deployment) : Service :=
  { name := dep.name
    ns := ns
    selector := depLabels dep
    ports := [{ name := "http", port := 80 }] }

/-- The `netv1.Ingress` literal built inside `createIngress` from the
service value it received: same name and namespace, the single
`rewrite-target` annotation, and one rule with one path
`/{svc.Name}` of `Prefix` type backed by service `svc.Name` port 80. -/
def createIngressRecord (svc : Service) : Ingress :=
  { name := svc.name
    ns := svc.ns
    annotations := [("nginx.ingress.kubernetes.io/rewrite-target", "/")]
    rules := [{ paths := [{ path := "/" ++ svc.name
                            pathType := "Prefix"
                            backend := { serviceName := svc.name
                                         servicePort := { number := 80 } } }] }] }

/-- Outcome of one `syncDeployment` call: `ok` (returned nil), `failed e`
(returned the error of the ingress create), or `nilPanic` (the Go code
dereferenced the nil `*Deployment` after a failed lister lookup — a
runtime panic before any API call). -/
inductive SyncResult where
  | ok
  | failed (e : ApiError)
  | nilPanic
deriving DecidableEq

/-- One attempted create call against the cluster API, with the object
that was passed and the error the call returned. -/
inductive Attempt where
  | svcCreate (svc : Service) (result : Option ApiError)
  | ingCreate (ing : Ingress) (result : Option ApiError)
deriving DecidableEq

/-- Embedding of `createIngress(ctx, client, svc)`: builds the ingress record from the
service value it was handed and issues the create, returning its error. -/
def createIngress (cl : Cluster) (svc : Service) :
    Cluster × Attempt × Option ApiError :=
  let ing := createIngressRecord svc
  let (cl2, e) := apiCreateIngress cl ing
  (cl2, Attempt.ingCreate ing e, e)

/-- Embedding of `func (c *controller) syncDeployment(ns, name string) error`:
1. lister lookup; on error the code only logs and proceeds, so a missing
   record means the subsequent `dep.Name` dereference panics (`nilPanic`);
2. build the service record and create it; the create error is only
   logged, and the returned object `s` (zero-valued on error) is used;
3. `return createIngress(ctx, c.clientset, s)` — the ingress create error
   is the function's result. -/
def syncDeployment (cache : DepCache) (cl : Cluster) (ns name : String) :
    SyncResult × Cluster × List Attempt :=
  match listerGet cache ns name with
  | none => (SyncResult.nilPanic, cl, [])
  | some dep =>
    let svc := mkService ns dep
    let (cl1, sRet, e1) := apiCreateService cl svc
    let (cl2, att2, e2) := createIngress cl1 sRet
    match e2 with
    | none => (SyncResult.ok, cl2, [Attempt.svcCreate svc e1, att2])
    | some e => (SyncResult.failed e, cl2, [Attempt.svcCreate svc e1, att2])

/-- A work item as enqueued by `handleAdd`/`handleDel`: the raw object
reference.  `obj ns name` is an object whose metadata accessor succeeds
(its namespace and name); `bad` is an item with no object metadata (e.g.
a `DeletedFinalStateUnknown` tombstone), on which the key function
errors. -/
inductive Item where
  | obj (ns name : String)
  | bad
deriving DecidableEq

/-- Embedding of `cache.MetaNamespaceKeyFunc(item)`: `namespace + "/" + name` when the
namespace is non-empty, else just the name; on an object without
metadata it returns the zero-valued key `""` together with an error
(the `Bool` component, `true` when an error was returned). -/
def metaNamespaceKeyFunc : Item → String × Bool
  | Item.obj ns name =>
    (if ns.length > 0 then ns ++ "/" ++ name else name, false)
  | Item.bad => ("", true)

/-- Embedding of `strings.Split(s, "/")` on the character list of the key: always at
least one (possibly empty) part. -/
def splitSlash : List Char → List (List Char)
  | [] => [[]]
  | c :: rest =>
    let ps := splitSlash rest
    if c = '/' then [] :: ps
    else
      match ps with
      | [] => [[c]]
      | p :: ps2 => (c :: p) :: ps2

/-- Embedding of `cache.SplitMetaNamespaceKey(key)`: one part means name only (empty
namespace), two parts mean namespace and name, anything else is an
error (`none`). -/
def splitMetaNamespaceKey (key : String) : Option (String × String) :=
  match splitSlash key.data with
  | [n] => some ("", String.mk n)
  | [nsp, n] => some (String.mk nsp, String.mk n)
  | _ => none

/-- What `c.queue.Get()` returned to one `processItem` call: a dequeued
item (with the rest of the pending queue) or the shutdown signal. -/
inductive GetResult where
  | item (i : Item) (rest : List Item)
  | shutdown
deriving DecidableEq

/-- How one `processItem` call ended: `continued` (returned `true`),
`stopped` (returned `false`), or `panicked` (a Go runtime panic
propagated out of it — deferred calls still ran). -/
inductive StepOutcome where
  | continued
  | stopped
  | panicked
deriving DecidableEq

/-- The queue bookkeeping calls one `processItem` call issued:
`forgets` the arguments of `c.queue.Forget` calls, `requeues` the
arguments of any requeue-with-backoff (`AddRateLimited`) calls. -/
structure PIEvents where
  forgets : List Item
  requeues : List Item
deriving DecidableEq

/-- Embedding of `func (c *controller) processItem() bool`, as a function of the
cache, the cluster and what `Get` returned.  On shutdown it returns
`false` before the deferred `Forget` is installed.  Otherwise
`defer c.queue.Forget(item)` runs on every exit path, including panic
unwinding.  A key-function error is only logged (the zero key `""` is
used); a split error returns `false`; a `syncDeployment` error returns
`false`; success returns `true`.  The controller contains no
`AddRateLimited` call, so `requeues` is empty on every path. -/
def processItem (cache : DepCache) (cl : Cluster) (got : GetResult) :
    StepOutcome × Cluster × PIEvents × List Attempt :=
  match got with
  | GetResult.shutdown => (StepOutcome.stopped, cl, ⟨[], []⟩, [])
  | GetResult.item i _rest =>
    let key := (metaNamespaceKeyFunc i).1
    match splitMetaNamespaceKey key with
    | none => (StepOutcome.stopped, cl, ⟨[i], []⟩, [])
    | some (ns, name) =>
      match syncDeployment cache cl ns name with
      | (SyncResult.ok, cl2, atts) =>
        (StepOutcome.continued, cl2, ⟨[i], []⟩, atts)
      | (SyncResult.failed _, cl2, atts) =>
        (StepOutcome.stopped, cl2, ⟨[i], []⟩, atts)
      | (SyncResult.nilPanic, cl2, atts) =>
        (StepOutcome.panicked, cl2, ⟨[i], []⟩, atts)

/-- Why one `worker` loop execution ended.  The Go loop body returns
nothing; this labels the exit for specification purposes:
`shutdownSignal` — `processItem` returned `false` because `Get` reported
shutdown; `processingFailure` — it returned `false` on a dequeued item
(split or sync error); `panicked` — a panic propagated;
`inputExhausted` — the modelled `Get` stream ended (in Go, `Get` would
block). -/
inductive TermReason where
  | shutdownSignal
  | processingFailure
  | panicked
  | inputExhausted
deriving DecidableEq

/-- Embedding of `func (c *controller) worker() { for c.processItem() { } }`, run
against a finite stream of `Get` results: it keeps dequeuing while
`processItem` returns `true` and exits as soon as it returns `false`
(or a panic propagates). -/
def worker (cache : DepCache) : Cluster → List GetResult → Cluster × TermReason
  | cl, [] => (cl, TermReason.inputExhausted)
  | cl, g :: gs =>
    match processItem cache cl g, g with
    | (StepOutcome.continued, cl2, _, _), _ => worker cache cl2 gs
    | (StepOutcome.panicked, cl2, _, _), _ => (cl2, TermReason.panicked)
    | (StepOutcome.stopped, cl2, _, _), GetResult.shutdown =>
      (cl2, TermReason.shutdownSignal)
    | (StepOutcome.stopped, cl2, _, _), GetResult.item _ _ =>
      (cl2, TermReason.processingFailure)

/-!
Model of `func (c *controller) run(ch <-chan struct{})` and its external
collaborators, over discrete time:

* `chClosed t` — whether the stop channel `ch` is closed at time `t`;
  a Go channel, once closed, stays closed (monotone).
* `hasSynced t` — what `c.depCacheSynced` (the informer's `HasSynced`)
  reports at time `t`; informer sync is monotone.
* `cache.WaitForCacheSync(ch, c.depCacheSynced)` polls via
  `wait.PollImmediateUntil(_, _, ch)`: it returns at a time `t0` at
  which the cache has synced (result `true`) or the stop channel is
  closed (result `false`, which `run` merely logs before proceeding).
* `go wait.Until(c.worker, time.Second, ch)`: `wait.Until`'s
  `BackoffUntil` selects on the stop channel *before* every invocation
  of the body, so a worker iteration can begin at time `t1` only if the
  channel is still open at `t1`.
-/

/-- Environment trace for one `run` execution: the stop channel and the
informer sync indicator over time, both monotone. -/
structure RunEnv where
  chClosed : Nat → Bool
  hasSynced : Nat → Bool
  chMono : ∀ s t, s ≤ t → chClosed s = true → chClosed t = true
  syncMono : ∀ s t, s ≤ t → hasSynced s = true → hasSynced t = true

/-- Time at which `WaitForCacheSync` can return: it returns at time `t` only when the cache has
synced or the stop channel has closed (`PollImmediateUntil` semantics). -/
def waitForCacheSyncReturnsAt (env : RunEnv) (t : Nat) : Prop :=
  env.hasSynced t = true ∨ env.chClosed t = true

/-- A `worker` iteration begins at `t1` in `run`'s execution: the sync
barrier returned at some earlier `t0`, and `wait.Until`'s pre-invocation
stop-channel check found the channel still open at `t1`. -/
def workerIterationAt (env : RunEnv) (t0 t1 : Nat) : Prop :=
  t0 ≤ t1 ∧ waitForCacheSyncReturnsAt env t0 ∧ env.chClosed t1 = false

/-- An environment in which the cache is synced from the start and the
controller is never stopped. -/
def runEnvAllSynced : RunEnv where
  chClosed := fun _ => false
  hasSynced := fun _ => true
  chMono := fun _ _ _ h => h
  syncMono := fun _ _ _ h => h

/-! Concrete fixtures used by witnesses and counterexamples. -/

/-- A workload `default/web` with pod-template labels `{app: web}`
(spec §8, Scenario 1). -/
def webDep : Deployment :=
  { ns := "default", name := "web", templateLabels := [("app", "web")] }

/-- A cache containing exactly the workload `default/web`. -/
def cacheWeb : DepCache := [webDep]

/-- An empty cluster: no services, no ingresses. -/
def clEmpty : Cluster := { services := [], ingresses := [] }

/-- A cluster that already contains the service `default/web` (and no
ingress). -/
def clSvcOnly : Cluster :=
  { services := [mkService "default" webDep], ingresses := [] }

/-- A cluster that already contains the ingress `default/web` (and no
service). -/
def clIngOnly : Cluster :=
  { services := []
    ingresses := [createIngressRecord (mkService "default" webDep)] }

/-- The enqueued raw object for workload `default/web`. -/
def itemWeb : Item := Item.obj "default" "web"

/-! Helper lemmas shared by the theorems below. -/

/-- A failed service create returns the zero-valued `Service` to the
caller (both error branches of the modelled client return
`Service.zero`). -/
theorem apiCreateService_error_returns_zero (cl : Cluster) (svc : Service)
    (cl1 : Cluster) (s : Service) (e : ApiError)
    (h : apiCreateService cl svc = (cl1, s, some e)) : s = Service.zero := by
  unfold apiCreateService at h
  split at h
  · simp only [Prod.mk.injEq] at h
    exact h.2.1.symm
  · split at h
    · simp only [Prod.mk.injEq] at h
      exact h.2.1.symm
    · simp only [Prod.mk.injEq] at h
      exact absurd h.2.2 (by simp)

/-- Handing the zero-valued service to `createIngress` attempts an
ingress create with an empty name, which the API server rejects as
`invalid` without changing the cluster. -/
theorem createIngress_of_zero_service (cl : Cluster) :
    createIngress cl Service.zero =
      (cl, Attempt.ingCreate (createIngressRecord Service.zero) (some ApiError.invalid),
       some ApiError.invalid) := rfl

/-- Claim C1: for every item dequeued by the worker (a non-shutdown
`Get` result), `processItem` calls `Forget` on that item exactly once —
the call is deferred right after `Get`, so it runs on the success path,
on both error-return paths, and during panic unwinding — and no
requeue-with-backoff (`AddRateLimited`) call occurs on any path. -/
theorem processItem_forget_once_no_requeue (cache : DepCache) (cl : Cluster)
    (i : Item) (rest : List Item) :
    (processItem cache cl (GetResult.item i rest)).2.2.1 = PIEvents.mk [i] [] := by
  simp only [processItem]
  split
  · rfl
  · split <;> rfl

/-- Claim C2 (code bug): reconciling an identity whose workload record
is absent from the cache does not complete as a success-no-op — the Go
code only logs the lister error and then dereferences the nil
`*Deployment` (`dep.Name`), a runtime panic, before any create call. -/
theorem syncDeployment_cacheMiss_panics :
    syncDeployment [] clEmpty "default" "web" = (SyncResult.nilPanic, clEmpty, []) := by
  decide

/-- Claim C3 counterexample: with the workload `default/web` cached and
an initially empty cluster, the first `syncDeployment` call succeeds,
but the second call on the unchanged cache returns a failure instead of
succeeding as a no-op: the service create's `alreadyExists` error is
only logged, the zero-valued service is passed on, and the resulting
invalid ingress create error is returned. -/
theorem reconcile_twice_second_call_fails_cex :
    (syncDeployment cacheWeb clEmpty "default" "web").1 = SyncResult.ok ∧
    (syncDeployment cacheWeb
        (syncDeployment cacheWeb clEmpty "default" "web").2.1 "default" "web").1 =
      SyncResult.failed ApiError.invalid := by decide

/-- Claim C3 as amended: calling `syncDeployment` twice for the same
workload identity with an unchanged cache still produces exactly one
Service and one Route in the cluster (the second call creates nothing),
but the second call reports a failure rather than succeeding as a
no-op. -/
theorem reconcile_twice_no_duplicates_but_failure (dep : Deployment)
    (h : dep.name ≠ "") :
    (syncDeployment [dep] clEmpty dep.ns dep.name).1 = SyncResult.ok ∧
    (syncDeployment [dep] clEmpty dep.ns dep.name).2.1.services.length = 1 ∧
    (syncDeployment [dep] clEmpty dep.ns dep.name).2.1.ingresses.length = 1 ∧
    (syncDeployment [dep]
        (syncDeployment [dep] clEmpty dep.ns dep.name).2.1 dep.ns dep.name).2.1 =
      (syncDeployment [dep] clEmpty dep.ns dep.name).2.1 ∧
    (syncDeployment [dep]
        (syncDeployment [dep] clEmpty dep.ns dep.name).2.1 dep.ns dep.name).1 =
      SyncResult.failed ApiError.invalid := by
  have hb : (dep.name == "") = false := beq_eq_false_iff_ne.mpr h
  have hget : listerGet [dep] dep.ns dep.name = some dep := by
    simp [listerGet, List.find?]
  have h1 : syncDeployment [dep] clEmpty dep.ns dep.name =
      (SyncResult.ok,
       { services := [mkService dep.ns dep]
         ingresses := [createIngressRecord (mkService dep.ns dep)] },
       [Attempt.svcCreate (mkService dep.ns dep) none,
        Attempt.ingCreate (createIngressRecord (mkService dep.ns dep)) none]) := by
    simp [syncDeployment, hget, apiCreateService, mkService, hb, hasService, clEmpty,
      createIngress, apiCreateIngress, createIngressRecord, hasIngress]
  have h2 : syncDeployment [dep]
      { services := [mkService dep.ns dep]
        ingresses := [createIngressRecord (mkService dep.ns dep)] } dep.ns dep.name =
      (SyncResult.failed ApiError.invalid,
       { services := [mkService dep.ns dep]
         ingresses := [createIngressRecord (mkService dep.ns dep)] },
       [Attempt.svcCreate (mkService dep.ns dep) (some ApiError.alreadyExists),
        Attempt.ingCreate (createIngressRecord Service.zero) (some ApiError.invalid)]) := by
    simp [syncDeployment, hget, apiCreateService, hb, hasService, mkService,
      createIngress, apiCreateIngress, createIngressRecord, Service.zero, hasIngress]
  rw [h1]
  refine ⟨rfl, rfl, rfl, ?_, ?_⟩
  · rw [h2]
  · rw [h2]

/-- Witness for the amended claim C3, at workload `default/web`. -/
theorem reconcile_twice_no_duplicates_but_failure_w :
    (syncDeployment [webDep] clEmpty webDep.ns webDep.name).1 = SyncResult.ok ∧
    (syncDeployment [webDep] clEmpty webDep.ns webDep.name).2.1.services.length = 1 ∧
    (syncDeployment [webDep] clEmpty webDep.ns webDep.name).2.1.ingresses.length = 1 ∧
    (syncDeployment [webDep]
        (syncDeployment [webDep] clEmpty webDep.ns webDep.name).2.1 webDep.ns
        webDep.name).2.1 =
      (syncDeployment [webDep] clEmpty webDep.ns webDep.name).2.1 ∧
    (syncDeployment [webDep]
        (syncDeployment [webDep] clEmpty webDep.ns webDep.name).2.1 webDep.ns
        webDep.name).1 =
      SyncResult.failed ApiError.invalid :=
  reconcile_twice_no_duplicates_but_failure webDep (by decide)

/-- Claim C4: `syncDeployment` returns success only if both create steps
completed without error — when it returns `ok`, the trace shows a
service create and an ingress create that both succeeded.  (A failed
service create yields the zero-valued service, whose ingress create is
rejected as invalid, so the overall call fails.) -/
theorem syncDeployment_ok_requires_both_creates (cache : DepCache) (cl : Cluster)
    (ns name : String) (h : (syncDeployment cache cl ns name).1 = SyncResult.ok) :
    ∃ svc ing, (syncDeployment cache cl ns name).2.2 =
      [Attempt.svcCreate svc none, Attempt.ingCreate ing none] := by
  unfold syncDeployment at h ⊢
  cases hl : listerGet cache ns name with
  | none =>
    simp only [hl] at h
    exact (SyncResult.noConfusion h)
  | some dep =>
    simp only [hl] at h ⊢
    rcases hS : apiCreateService cl (mkService ns dep) with ⟨cl1, sRet, e1⟩
    simp only [hS] at h ⊢
    rcases hI : createIngress cl1 sRet with ⟨cl2, att2, e2⟩
    simp only [hI] at h ⊢
    cases e2 with
    | some e => simp at h
    | none =>
      cases e1 with
      | some e =>
        have hz : sRet = Service.zero := apiCreateService_error_returns_zero cl _ _ _ _ hS
        rw [hz, createIngress_of_zero_service] at hI
        simp only [Prod.mk.injEq] at hI
        exact absurd hI.2.2 (by simp)
      | none =>
        refine ⟨mkService ns dep, createIngressRecord sRet, ?_⟩
        show [Attempt.svcCreate (mkService ns dep) none, att2] =
          [Attempt.svcCreate (mkService ns dep) none,
           Attempt.ingCreate (createIngressRecord sRet) none]
        unfold createIngress at hI
        simp only [Prod.mk.injEq] at hI
        rw [← hI.2.1, hI.2.2]

/-- Witness for claim C4, at workload `default/web` over an empty
cluster (the successful first reconciliation). -/
theorem syncDeployment_ok_requires_both_creates_w :
    ∃ svc ing, (syncDeployment cacheWeb clEmpty "default" "web").2.2 =
      [Attempt.svcCreate svc none, Attempt.ingCreate ing none] :=
  syncDeployment_ok_requires_both_creates cacheWeb clEmpty "default" "web" (by decide)

/-- Claim C5 counterexample: with the service `default/web` already in
the cluster, the service create fails with `alreadyExists`, yet the
route step is still entered — the trace records an attempted ingress
create (built from the zero-valued service), refuting "the Route step is
not entered when the Service create fails". -/
theorem ingress_attempted_after_service_failure_cex :
    (syncDeployment cacheWeb clSvcOnly "default" "web").2.2 =
      [Attempt.svcCreate (mkService "default" webDep) (some ApiError.alreadyExists),
       Attempt.ingCreate (createIngressRecord Service.zero) (some ApiError.invalid)] := by
  decide

/-- Claim C5 as amended: the route step is entered unconditionally after
the service create; when the service create fails (any error), the route
step receives the zero-valued service the client returned — so no nil
pointer is dereferenced, but an ingress create with empty name and
namespace is attempted. -/
theorem createIngress_entered_with_zero_service (cache : DepCache) (cl : Cluster)
    (ns name : String) (dep : Deployment)
    (hdep : listerGet cache ns name = some dep)
    (hfail : (apiCreateService cl (mkService ns dep)).2.2 ≠ none) :
    ∃ e1 e2, e1 ≠ none ∧
      (syncDeployment cache cl ns name).2.2 =
        [Attempt.svcCreate (mkService ns dep) e1,
         Attempt.ingCreate (createIngressRecord Service.zero) e2] := by
  unfold syncDeployment
  rcases hS : apiCreateService cl (mkService ns dep) with ⟨cl1, sRet, e1⟩
  cases e1 with
  | none => rw [hS] at hfail; simp at hfail
  | some e =>
    have hz : sRet = Service.zero := apiCreateService_error_returns_zero cl _ _ _ _ hS
    refine ⟨some e, some ApiError.invalid, by simp, ?_⟩
    simp only [hdep, hS, hz, createIngress_of_zero_service]

/-- Witness for the amended claim C5, at workload `default/web` against
a cluster already holding the service. -/
theorem createIngress_entered_with_zero_service_w :
    ∃ e1 e2, e1 ≠ none ∧
      (syncDeployment cacheWeb clSvcOnly "default" "web").2.2 =
        [Attempt.svcCreate (mkService "default" webDep) e1,
         Attempt.ingCreate (createIngressRecord Service.zero) e2] :=
  createIngress_entered_with_zero_service cacheWeb clSvcOnly "default" "web" webDep
    (by decide) (by decide)

/-- Claim C6: for every workload present in the cache, the service
record that `syncDeployment` constructs and attempts to create has the
workload's name and namespace, a selector equal to the workload's
pod-template labels, and exactly one port descriptor named "http" with
port 80. -/
theorem service_record_matches_workload (cache : DepCache) (cl : Cluster)
    (ns name : String) (dep : Deployment)
    (h : listerGet cache ns name = some dep) :
    ∃ e rest, (syncDeployment cache cl ns name).2.2 =
        Attempt.svcCreate (mkService ns dep) e :: rest ∧
      (mkService ns dep).name = dep.name ∧
      (mkService ns dep).ns = dep.ns ∧
      (mkService ns dep).selector = depLabels dep ∧
      (mkService ns dep).ports = [ServicePort.mk "http" 80] := by
  have hp := List.find?_some h
  rw [Bool.and_eq_true, beq_iff_eq, beq_iff_eq] at hp
  unfold syncDeployment
  rcases hS : apiCreateService cl (mkService ns dep) with ⟨cl1, sRet, e1⟩
  rcases hI : createIngress cl1 sRet with ⟨cl2, att2, e2⟩
  refine ⟨e1, [att2], ?_, rfl, hp.1.symm, rfl, rfl⟩
  simp only [h, hS, hI]
  cases e2 <;> rfl

/-- Witness for claim C6, at workload `default/web`. -/
theorem service_record_matches_workload_w :
    ∃ e rest, (syncDeployment cacheWeb clEmpty "default" "web").2.2 =
        Attempt.svcCreate (mkService "default" webDep) e :: rest ∧
      (mkService "default" webDep).name = webDep.name ∧
      (mkService "default" webDep).ns = webDep.ns ∧
      (mkService "default" webDep).selector = depLabels webDep ∧
      (mkService "default" webDep).ports = [ServicePort.mk "http" 80] :=
  service_record_matches_workload cacheWeb clEmpty "default" "web" webDep (by decide)

/-- Claim C7: the ingress record `createIngress` builds has the same
name and namespace as the service it received, carries exactly the one
nginx rewrite-target-to-root annotation, and has a single rule with the
single path `/{name}` of `Prefix` type whose backend is that service
name at port 80. -/
theorem ingress_record_fields (svc : Service) :
    (createIngressRecord svc).name = svc.name ∧
    (createIngressRecord svc).ns = svc.ns ∧
    (createIngressRecord svc).annotations =
      [("nginx.ingress.kubernetes.io/rewrite-target", "/")] ∧
    (createIngressRecord svc).rules =
      [IngressRule.mk [HTTPIngressPath.mk ("/" ++ svc.name) "Prefix"
        (IngressBackend.mk svc.name (ServiceBackendPort.mk 80))]] :=
  ⟨rfl, rfl, rfl, rfl⟩

/-- Claim C8: no worker iteration begins before the cache has synced.
If a worker iteration begins at `t1` (the sync barrier returned at some
`t0 ≤ t1` and `wait.Until` found the stop channel open at `t1`), then
`HasSynced` is true at `t1`: the barrier can only return early when the
stop channel closed, and a closed channel stays closed, contradicting
the open check. -/
theorem run_worker_only_after_sync (env : RunEnv) (t0 t1 : Nat)
    (h : workerIterationAt env t0 t1) : env.hasSynced t1 = true := by
  obtain ⟨hle, hw, hopen⟩ := h
  cases hw with
  | inl hs => exact env.syncMono t0 t1 hle hs
  | inr hc => exact absurd (env.chMono t0 t1 hle hc) (by simp [hopen])

/-- Witness for claim C8, in the environment that is synced from the
start and never stopped. -/
theorem run_worker_only_after_sync_w : runEnvAllSynced.hasSynced 0 = true :=
  run_worker_only_after_sync runEnvAllSynced 0 0 ⟨Nat.le_refl 0, Or.inl rfl, rfl⟩

/-- Claim C9 counterexample: the worker loop terminates without any
shutdown signal — dequeuing `default/web` against a cluster that
already holds the ingress makes `syncDeployment` fail, `processItem`
returns `false`, and the loop exits even though no shutdown was ever
dequeued. -/
theorem worker_exits_without_shutdown_cex :
    (worker cacheWeb clIngOnly [GetResult.item itemWeb []]).2 =
      TermReason.processingFailure ∧
    GetResult.shutdown ∉ [GetResult.item itemWeb []] := by decide

/-- Claim C9 as amended: the loop proceeds to the next dequeue only
after a successful `processItem`; it terminates on shutdown and also on
any processing failure.  Stated positively: whenever a worker run ends
because of the shutdown signal, a shutdown was actually dequeued. -/
theorem worker_shutdown_reason_requires_shutdown (cache : DepCache) :
    ∀ (gs : List GetResult) (cl : Cluster),
      (worker cache cl gs).2 = TermReason.shutdownSignal → GetResult.shutdown ∈ gs := by
  intro gs
  induction gs with
  | nil =>
    intro cl h
    simp [worker] at h
  | cons g gs ih =>
    intro cl h
    rcases hp : processItem cache cl g with ⟨o, cl2, ev, atts⟩
    cases o with
    | continued =>
      have hw : worker cache cl (g :: gs) = worker cache cl2 gs := by
        simp [worker, hp]
      rw [hw] at h
      exact List.mem_cons_of_mem _ (ih cl2 h)
    | panicked =>
      have hw : worker cache cl (g :: gs) = (cl2, TermReason.panicked) := by
        simp [worker, hp]
      rw [hw] at h
      exact absurd h (by simp)
    | stopped =>
      cases g with
      | shutdown => exact List.mem_cons_self _ _
      | item i rest =>
        have hw : worker cache cl (GetResult.item i rest :: gs) =
            (cl2, TermReason.processingFailure) := by
          simp [worker, hp]
        rw [hw] at h
        exact absurd h (by simp)

/-- Witness for the amended claim C9: a run that ends on the shutdown
signal indeed dequeued a shutdown. -/
theorem worker_shutdown_reason_requires_shutdown_w :
    GetResult.shutdown ∈ [GetResult.shutdown] :=
  worker_shutdown_reason_requires_shutdown [] [GetResult.shutdown] clEmpty (by decide)

/-- Claim C10: when the key function fails on a dequeued item,
`processItem` only logs the error and continues with the zero-valued key
`""`, whose split succeeds with empty namespace and name, so
`syncDeployment` is still invoked on the empty identity — the call's
outcome, cluster and attempted creates are exactly those of
`syncDeployment cache cl "" ""`. -/
theorem processItem_badItem_attempts_empty_identity (cache : DepCache) (cl : Cluster)
    (rest : List Item) :
    metaNamespaceKeyFunc Item.bad = ("", true) ∧
    splitMetaNamespaceKey "" = some ("", "") ∧
    processItem cache cl (GetResult.item Item.bad rest) =
      ((match (syncDeployment cache cl "" "").1 with
        | SyncResult.ok => StepOutcome.continued
        | SyncResult.failed _ => StepOutcome.stopped
        | SyncResult.nilPanic => StepOutcome.panicked),
       (syncDeployment cache cl "" "").2.1, PIEvents.mk [Item.bad] [],
       (syncDeployment cache cl "" "").2.2) := by
  have hk : splitMetaNamespaceKey "" = some ("", "") := by decide
  refine ⟨rfl, hk, ?_⟩
  rcases hs : syncDeployment cache cl "" "" with ⟨r, cl2, atts⟩
  cases r <;> simp [processItem, metaNamespaceKeyFunc, hk, hs]

end Ekspose
